import Mathlib

/-!
Verification development for the i2c-over-ip repository: a shallow
embedding of the remote-I2C protocol implemented by src/i2c_server.py and
src/i2c_client.py, together with theorems settling the frozen claims about
its specification.

Modelling conventions:
* Python dictionaries appearing on the wire are embedded as records whose
  fields are `Option`-typed (a missing key is `none`).
* The external Bus Driver (smbus2) is an opaque record of fallible
  operations returning `Except String`; a raised driver exception is an
  `.error` carrying the exception message.
* Python exception messages that contain quote characters (for example
  the rendering of `KeyError` and `AttributeError`) are embedded with the
  quote characters elided; no claim depends on the quoting.
* Byte strings are `List Nat` (each entry one byte, values < 256 on real
  inputs); machine reads deliver chunks, so a TCP stream is a
  `List (List Nat)` of successive receive results, exhaustion of the list
  (or an empty chunk) meaning the peer closed the connection.
-/

namespace I2C

/-- Opaque Bus Driver capability record, mirroring the smbus2.SMBus methods
the server invokes.  An `.error` models the driver raising an exception
with the given message. -/
structure BusDriver where
  write_byte : Nat → Nat → Except String Unit
  read_byte : Nat → Except String Nat
  write_byte_data : Nat → Nat → Nat → Except String Unit
  read_byte_data : Nat → Nat → Except String Nat
  write_word_data : Nat → Nat → Nat → Except String Unit
  read_word_data : Nat → Nat → Except String Nat
  write_i2c_block_data : Nat → Nat → List Nat → Except String Unit
  read_i2c_block_data : Nat → Nat → Nat → Except String (List Nat)

/-- A command dictionary as received by `I2CServer.process_command` and as
built by the client operations: every key the code ever reads, `none`
meaning the key is absent. -/
structure Cdict where
  type : Option String := none
  address : Option Nat := none
  register : Option Nat := none
  value : Option Nat := none
  data : Option (List Nat) := none
  length : Option Nat := none
deriving DecidableEq, Repr

/-- A response dictionary as built by the server and inspected by the
client: every key either side ever reads, `none` meaning absent.  The
`error` field is used only by the invalid-JSON path of `handle_client`. -/
structure Jdict where
  status : Option String := none
  message : Option String := none
  value : Option Nat := none
  data : Option (List Nat) := none
  devices : Option (List Nat) := none
  error : Option String := none
deriving DecidableEq, Repr

/-- Server response literal for a payload-free success. -/
def successResp : Jdict := { status := some "success" }

/-- Server response literal carrying a read value. -/
def successVal (v : Nat) : Jdict := { status := some "success", value := some v }

/-- Server response literal carrying a block of data. -/
def successData (bs : List Nat) : Jdict := { status := some "success", data := some bs }

/-- Server response literal carrying the scan result. -/
def successDevices (ds : List Nat) : Jdict := { status := some "success", devices := some ds }

/-- Server response literal carrying a confirmation message. -/
def successMsg (m : String) : Jdict := { status := some "success", message := some m }

/-- Server response literal for an error carrying a message. -/
def errorResp (m : String) : Jdict := { status := some "error", message := some m }

/-- Response body sent by `handle_client` when the received bytes are not
valid JSON. -/
def invalidJsonResp : Jdict := { error := some "Invalid JSON" }

/-- Message of a Python `KeyError` on a missing dictionary key (Python
renders the key with quotes, elided here). -/
def keyMsg (k : String) : String := "KeyError: " ++ k

/-- Message of the `AttributeError` raised when `self.bus` is `None` and a
method is invoked on it (quote characters elided). -/
def noneBusMsg (opName : String) : String :=
  "NoneType object has no attribute " ++ opName

/-- Message of the `OSError` raised when a bus operation is attempted on a
handle that has been closed (by a failed `reset_interface`). -/
def closedBusMsg : String := "Bad file descriptor"

/-- Server-side mutable state relevant to command processing: the
`self.bus` handle (possibly `None`), whether that handle has been closed
without being replaced, and the configured bus number. -/
structure ServerState where
  bus : Option BusDriver
  busClosed : Bool
  bus_number : Nat

/-- Effect of invoking a bus-driver method through `self.bus`: an
`AttributeError` if the handle is `None`, an `OSError` if it was closed by
a failed reset, otherwise the driver operation itself. -/
def ServerState.busCall {α : Type} (st : ServerState) (opName : String)
    (k : BusDriver → Except String α) : Except String α :=
  match st.bus with
  | none => .error (noneBusMsg opName)
  | some b => if st.busClosed then .error closedBusMsg else k b

/-- `self.bus.write_byte(address, value)` as seen from the server state. -/
def ServerState.writeByte (st : ServerState) (a v : Nat) : Except String Unit :=
  st.busCall "write_byte" fun b => b.write_byte a v

/-- `self.bus.read_byte(address)` as seen from the server state. -/
def ServerState.readByte (st : ServerState) (a : Nat) : Except String Nat :=
  st.busCall "read_byte" fun b => b.read_byte a

/-- `self.bus.write_byte_data(address, register, value)`. -/
def ServerState.writeByteData (st : ServerState) (a r v : Nat) : Except String Unit :=
  st.busCall "write_byte_data" fun b => b.write_byte_data a r v

/-- `self.bus.read_byte_data(address, register)`. -/
def ServerState.readByteData (st : ServerState) (a r : Nat) : Except String Nat :=
  st.busCall "read_byte_data" fun b => b.read_byte_data a r

/-- `self.bus.write_word_data(address, register, value)`. -/
def ServerState.writeWordData (st : ServerState) (a r v : Nat) : Except String Unit :=
  st.busCall "write_word_data" fun b => b.write_word_data a r v

/-- `self.bus.read_word_data(address, register)`. -/
def ServerState.readWordData (st : ServerState) (a r : Nat) : Except String Nat :=
  st.busCall "read_word_data" fun b => b.read_word_data a r

/-- `self.bus.write_i2c_block_data(address, register, data)`. -/
def ServerState.writeBlockData (st : ServerState) (a r : Nat) (ds : List Nat) :
    Except String Unit :=
  st.busCall "write_i2c_block_data" fun b => b.write_i2c_block_data a r ds

/-- `self.bus.read_i2c_block_data(address, register, length)`. -/
def ServerState.readBlockData (st : ServerState) (a r n : Nat) :
    Except String (List Nat) :=
  st.busCall "read_i2c_block_data" fun b => b.read_i2c_block_data a r n

/-- The scan loop of `process_command`: for every address in
`range(0x03, 0x78)` attempt a one-byte read, appending the address when the
read succeeds and swallowing any exception otherwise; written as the
equivalent filter over the ascending address list. -/
def scanDevices (st : ServerState) : List Nat :=
  (List.range' 3 117).filter fun a => (st.readByte a).isOk

/-- Result of one `process_command` invocation: the returned response
dictionary, the server state afterwards (it changes only in the
`reset_interface` branch), and whether `close()` was invoked on the old
bus handle (only the `reset_interface` branch does so). -/
structure StepResult where
  resp : Jdict
  state : ServerState
  closedOld : Bool

/-- Rendering of the `type` value inside the unknown-command message
(`None` when the key is absent, mirroring Python string interpolation). -/
def typeStr : Option String → String
  | some s => s
  | none => "None"

/-- Shallow embedding of `I2CServer.process_command`.  Dictionary key
lookups are performed in source order; a missing key raises `KeyError`,
which the enclosing `try` converts into an error response, as does any
exception out of a bus-driver call. -/
def processCommand (openB : Nat → Except String BusDriver) (st : ServerState)
    (c : Cdict) : StepResult :=
  if c.type = some "write_byte" then
    match c.address with
    | none => ⟨errorResp (keyMsg "address"), st, false⟩
    | some a =>
      match c.value with
      | none => ⟨errorResp (keyMsg "value"), st, false⟩
      | some v =>
        match st.writeByte a v with
        | .ok _ => ⟨successResp, st, false⟩
        | .error m => ⟨errorResp m, st, false⟩
  else if c.type = some "read_byte" then
    match c.address with
    | none => ⟨errorResp (keyMsg "address"), st, false⟩
    | some a =>
      match st.readByte a with
      | .ok v => ⟨successVal v, st, false⟩
      | .error m => ⟨errorResp m, st, false⟩
  else if c.type = some "write_byte_data" then
    match c.address with
    | none => ⟨errorResp (keyMsg "address"), st, false⟩
    | some a =>
      match c.register with
      | none => ⟨errorResp (keyMsg "register"), st, false⟩
      | some r =>
        match c.value with
        | none => ⟨errorResp (keyMsg "value"), st, false⟩
        | some v =>
          match st.writeByteData a r v with
          | .ok _ => ⟨successResp, st, false⟩
          | .error m => ⟨errorResp m, st, false⟩
  else if c.type = some "read_byte_data" then
    match c.address with
    | none => ⟨errorResp (keyMsg "address"), st, false⟩
    | some a =>
      match c.register with
      | none => ⟨errorResp (keyMsg "register"), st, false⟩
      | some r =>
        match st.readByteData a r with
        | .ok v => ⟨successVal v, st, false⟩
        | .error m => ⟨errorResp m, st, false⟩
  else if c.type = some "write_word_data" then
    match c.address with
    | none => ⟨errorResp (keyMsg "address"), st, false⟩
    | some a =>
      match c.register with
      | none => ⟨errorResp (keyMsg "register"), st, false⟩
      | some r =>
        match c.value with
        | none => ⟨errorResp (keyMsg "value"), st, false⟩
        | some v =>
          match st.writeWordData a r v with
          | .ok _ => ⟨successResp, st, false⟩
          | .error m => ⟨errorResp m, st, false⟩
  else if c.type = some "read_word_data" then
    match c.address with
    | none => ⟨errorResp (keyMsg "address"), st, false⟩
    | some a =>
      match c.register with
      | none => ⟨errorResp (keyMsg "register"), st, false⟩
      | some r =>
        match st.readWordData a r with
        | .ok v => ⟨successVal v, st, false⟩
        | .error m => ⟨errorResp m, st, false⟩
  else if c.type = some "write_i2c_block_data" then
    match c.address with
    | none => ⟨errorResp (keyMsg "address"), st, false⟩
    | some a =>
      match c.register with
      | none => ⟨errorResp (keyMsg "register"), st, false⟩
      | some r =>
        match c.data with
        | none => ⟨errorResp (keyMsg "data"), st, false⟩
        | some ds =>
          match st.writeBlockData a r ds with
          | .ok _ => ⟨successResp, st, false⟩
          | .error m => ⟨errorResp m, st, false⟩
  else if c.type = some "read_i2c_block_data" then
    match c.address with
    | none => ⟨errorResp (keyMsg "address"), st, false⟩
    | some a =>
      match c.register with
      | none => ⟨errorResp (keyMsg "register"), st, false⟩
      | some r =>
        match c.length with
        | none => ⟨errorResp (keyMsg "length"), st, false⟩
        | some n =>
          match st.readBlockData a r n with
          | .ok ds => ⟨successData ds, st, false⟩
          | .error m => ⟨errorResp m, st, false⟩
  else if c.type = some "scan" then
    ⟨successDevices (scanDevices st), st, false⟩
  else if c.type = some "reset_interface" then
    match openB st.bus_number with
    | .ok b =>
      ⟨successMsg "I2C interface reset",
        { bus := some b, busClosed := false, bus_number := st.bus_number },
        st.bus.isSome⟩
    | .error e =>
      ⟨errorResp ("Reset failed: " ++ e),
        { st with busClosed := st.bus.isSome || st.busClosed },
        st.bus.isSome⟩
  else
    ⟨errorResp ("Unknown command type: " ++ typeStr c.type), st, false⟩

/-- Big-endian 32-bit encoding of a length, as produced by
`struct.pack` with format `!I` (assuming the value fits in 32 bits). -/
def natTo4 (n : Nat) : List Nat :=
  [n / 16777216 % 256, n / 65536 % 256, n / 256 % 256, n % 256]

/-- Big-endian interpretation of a byte list, as computed by
`struct.unpack` with format `!I` on the four prefix bytes. -/
def be32 (bs : List Nat) : Nat :=
  bs.foldl (fun a b => a * 256 + b) 0

/-- One framed server response on the wire: the 4-byte big-endian length
of the encoded JSON body followed by the body itself (the server sends
these with two consecutive `send` calls). -/
def frame (enc : Jdict → List Nat) (r : Jdict) : List Nat :=
  natTo4 (enc r).length ++ enc r

/-- `socket.recv(n)` over a modelled TCP stream: return up to `n` bytes
from the earliest data available, leaving the remainder of a partially
consumed chunk at the front of the stream; an exhausted stream means the
peer closed the connection and every further receive returns no bytes. -/
def recv (n : Nat) : List (List Nat) → List Nat × List (List Nat)
  | [] => ([], [])
  | c :: rest => if c.length ≤ n then (c, rest) else (c.take n, c.drop n :: rest)

/-- Message of the `ConnectionError` raised by a short length-prefix read. -/
def shortLenMsg : String := "Failed to receive response length"

/-- Message of the `ConnectionError` raised by a zero-length read inside
the body accumulation loop. -/
def closedMidBodyMsg : String := "Connection closed while receiving response"

/-- Body-accumulation loop of `_send_command` (client lines 61 to 66),
written with an explicit iteration bound: every iteration either raises or
appends at least one byte bounded by the bytes still missing, so
`total - acc.length` iterations always suffice, and when the bound reaches
zero the loop guard is necessarily false, making the zero-fuel result the
same `(acc, chunks)` exit the guard produces. -/
def recvLoopAux (total : Nat) : Nat → List Nat → List (List Nat) →
    Except String (List Nat × List (List Nat))
  | 0, acc, chunks => .ok (acc, chunks)
  | fuel + 1, acc, chunks =>
    if acc.length < total then
      let pr := recv (min 4096 (total - acc.length)) chunks
      if pr.1.isEmpty then .error closedMidBodyMsg
      else recvLoopAux total fuel (acc ++ pr.1) pr.2
    else .ok (acc, chunks)

/-- The `while len(response_data) < response_length` loop, started on an
accumulator (initially empty). -/
def recvLoop (total : Nat) (acc : List Nat) (chunks : List (List Nat)) :
    Except String (List Nat × List (List Nat)) :=
  recvLoopAux total (total - acc.length) acc chunks

/-- Response-receiving part of `_send_command` (client lines 53 to 66):
one `recv(4)` for the length bytes, a `ConnectionError` if that single
receive yields other than 4 bytes, then the body accumulation loop for the
decoded length.  Returns the body bytes and the unconsumed stream. -/
def recvResponse (chunks : List (List Nat)) :
    Except String (List Nat × List (List Nat)) :=
  let pr := recv 4 chunks
  if pr.1.length ≠ 4 then .error shortLenMsg
  else recvLoop (be32 pr.1) [] pr.2

/-- Whether a byte is a UTF-8 continuation byte. -/
def isCont (b : Nat) : Bool := decide (128 ≤ b ∧ b ≤ 191)

/-- Allowed range of the first continuation byte of a three-byte UTF-8
sequence (excluding overlong encodings and surrogates, as Python strict
decoding does). -/
def cont2ok (b c : Nat) : Bool :=
  if b = 224 then decide (160 ≤ c ∧ c ≤ 191)
  else if b = 237 then decide (128 ≤ c ∧ c ≤ 159)
  else isCont c

/-- Allowed range of the first continuation byte of a four-byte UTF-8
sequence (excluding overlong encodings and values beyond U+10FFFF). -/
def cont3ok (b c : Nat) : Bool :=
  if b = 240 then decide (144 ≤ c ∧ c ≤ 191)
  else if b = 244 then decide (128 ≤ c ∧ c ≤ 143)
  else isCont c

/-- Strict UTF-8 decoding of a byte sequence into code points, as
performed by `bytes.decode` before `json.loads` in `handle_client`;
`none` models a raised `UnicodeDecodeError`. -/
def utf8Decode : List Nat → Option (List Nat)
  | [] => some []
  | b :: rest =>
    if b ≤ 127 then (utf8Decode rest).map (b :: ·)
    else if 194 ≤ b ∧ b ≤ 223 then
      match rest with
      | c1 :: rest1 =>
        if isCont c1 then
          (utf8Decode rest1).map (((b - 192) * 64 + (c1 - 128)) :: ·)
        else none
      | [] => none
    else if 224 ≤ b ∧ b ≤ 239 then
      match rest with
      | c1 :: c2 :: rest2 =>
        if cont2ok b c1 && isCont c2 then
          (utf8Decode rest2).map
            (((b - 224) * 4096 + (c1 - 128) * 64 + (c2 - 128)) :: ·)
        else none
      | _ => none
    else if 240 ≤ b ∧ b ≤ 244 then
      match rest with
      | c1 :: c2 :: c3 :: rest3 =>
        if cont3ok b c1 && isCont c2 && isCont c3 then
          (utf8Decode rest3).map
            (((b - 240) * 262144 + (c1 - 128) * 4096 + (c2 - 128) * 64
              + (c3 - 128)) :: ·)
        else none
      | _ => none
    else none

/-- Shallow embedding of `I2CServer.handle_client`: consume the successive
results of `recv(1024)` (the argument list), stopping on a zero-length
receive; decode each as UTF-8 and parse as JSON (`jload`, abstract), on
parse failure emit the framed invalid-JSON body and continue, on a
UTF-8 decoding failure the raised `UnicodeDecodeError` escapes the inner
handler (which catches only `json.JSONDecodeError`) and terminates the
loop with no response; otherwise dispatch through `process_command`,
emit its framed response and continue with the updated state.  Returns the
emitted frames in order and the final server state. -/
def handleClient (jload : List Nat → Option Cdict) (enc : Jdict → List Nat)
    (openB : Nat → Except String BusDriver) (st : ServerState) :
    List (List Nat) → List (List Nat) × ServerState
  | [] => ([], st)
  | d :: rest =>
    if d.isEmpty then ([], st)
    else
      match utf8Decode d with
      | none => ([], st)
      | some s =>
        match jload s with
        | none =>
          let pr := handleClient jload enc openB st rest
          (frame enc invalidJsonResp :: pr.1, pr.2)
        | some cmd =>
          let r := processCommand openB st cmd
          let pr := handleClient jload enc openB r.state rest
          (frame enc r.resp :: pr.1, pr.2)

/-- A client-side socket: `dead` is a socket object whose `connect` failed
(left in `self.socket` by `_connect`), on which any transfer raises;
`conn` is a connected socket carrying the inbound byte stream it will
deliver, with `sendOk = false` modelling a send that raises (peer reset or
timeout). -/
inductive Sock where
  | dead : Sock
  | conn (sendOk : Bool) (chunks : List (List Nat)) : Sock
deriving DecidableEq, Repr

/-- Client connection state: configured host and port and the held socket
(`none` is `self.socket = None`). -/
structure ClientState where
  host : String
  port : Nat
  socket : Option Sock
deriving DecidableEq, Repr

/-- The exceptions a client operation can raise, tagged by the Python
exception class and provenance:
`connectionError` is the `ConnectionError` class raised by the client
itself; `remoteError` is the `RuntimeError` raised when a decoded response
reports status error (the RemoteError of the spec taxonomy);
`jsonDecodeError` is a response body `json.loads` failure and `keyError` a
missing payload field on a success response (together the ProtocolError of
the spec taxonomy); `osError` is a raised socket-level `OSError`. -/
inductive ClientError where
  | connectionError (msg : String) : ClientError
  | remoteError (msg : String) : ClientError
  | jsonDecodeError : ClientError
  | keyError (field : String) : ClientError
  | osError (msg : String) : ClientError
deriving DecidableEq, Repr

/-- Which client exceptions the spec taxonomy classifies as
ProtocolError: a syntactically valid response missing an expected field,
or a response body that fails JSON decoding. -/
def ClientError.isProtocolError : ClientError → Bool
  | .jsonDecodeError => true
  | .keyError _ => true
  | _ => false

/-- Message of the `ConnectionError` raised when `_connect` fails. -/
def cannotConnectMsg (host : String) (port : Nat) : String :=
  "Cannot connect to " ++ host ++ ":" ++ toString port

/-- Body of the `try` block of `_send_command` over an already-held
socket: send the encoded command (raising on a dead or resetting socket),
receive one framed response, decode it as JSON (`jd`, abstract, covering
both `bytes.decode` and `json.loads`), and raise `RuntimeError` when the
decoded response carries status error.  On success returns the response
dictionary and the socket with its remaining inbound stream. -/
def trySend (jd : List Nat → Option Jdict) : Sock → Except ClientError (Jdict × Sock)
  | .dead => .error (.osError "Transport endpoint is not connected")
  | .conn sendOk chunks =>
    if sendOk then
      match recvResponse chunks with
      | .error m => .error (.connectionError m)
      | .ok (body, rest) =>
        match jd body with
        | none => .error .jsonDecodeError
        | some resp =>
          if resp.status = some "error" then
            .error (.remoteError (resp.message.getD "Unknown error"))
          else .ok (resp, .conn sendOk rest)
    else .error (.osError "Connection reset by peer")

/-- The `try`/`except` of `_send_command` around `trySend`: any exception
closes and discards the socket (sets it to `None`) before re-raising. -/
def runTry (jd : List Nat → Option Jdict) (st : ClientState) (sk : Sock) :
    Except ClientError Jdict × ClientState :=
  match trySend jd sk with
  | .ok (resp, sk2) => (.ok resp, { st with socket := some sk2 })
  | .error e => (.error e, { st with socket := none })

/-- Shallow embedding of `I2CClient._send_command`.  `connectRes` models
the outcome of `_connect` when it is needed: `none` means the TCP connect
raises (leaving the freshly created, unconnected socket object in
`self.socket`), `some (sendOk, chunks)` a connected socket with its send
behaviour and inbound stream.  The command dictionary is serialized and
sent but does not influence the modelled inbound stream, which is chosen
by the instantiation. -/
def sendCommandBytes (jd : List Nat → Option Jdict)
    (connectRes : Option (Bool × List (List Nat))) (st : ClientState)
    (command : Cdict) : Except ClientError Jdict × ClientState :=
  match st.socket with
  | none =>
    match connectRes with
    | none =>
      (.error (.connectionError (cannotConnectMsg st.host st.port)),
        { st with socket := some .dead })
    | some (sendOk, chunks) =>
      runTry jd { st with socket := some (.conn sendOk chunks) } (.conn sendOk chunks)
  | some sk => runTry jd st sk

/-- Client operation `write_byte`. -/
def write_byte (jd : List Nat → Option Jdict)
    (cr : Option (Bool × List (List Nat))) (st : ClientState) (address value : Nat) :
    Except ClientError Unit × ClientState :=
  let pr := sendCommandBytes jd cr st
    { type := some "write_byte", address := some address, value := some value }
  match pr.1 with
  | .error e => (.error e, pr.2)
  | .ok _ => (.ok (), pr.2)

/-- Client operation `read_byte`: returns `response['value']`, a missing
key raising `KeyError` outside the `try` of `_send_command`. -/
def read_byte (jd : List Nat → Option Jdict)
    (cr : Option (Bool × List (List Nat))) (st : ClientState) (address : Nat) :
    Except ClientError Nat × ClientState :=
  let pr := sendCommandBytes jd cr st
    { type := some "read_byte", address := some address }
  match pr.1 with
  | .error e => (.error e, pr.2)
  | .ok resp =>
    match resp.value with
    | some v => (.ok v, pr.2)
    | none => (.error (.keyError "value"), pr.2)

/-- Client operation `write_byte_data`. -/
def write_byte_data (jd : List Nat → Option Jdict)
    (cr : Option (Bool × List (List Nat))) (st : ClientState)
    (address register value : Nat) : Except ClientError Unit × ClientState :=
  let pr := sendCommandBytes jd cr st
    { type := some "write_byte_data", address := some address,
      register := some register, value := some value }
  match pr.1 with
  | .error e => (.error e, pr.2)
  | .ok _ => (.ok (), pr.2)

/-- Client operation `read_byte_data`. -/
def read_byte_data (jd : List Nat → Option Jdict)
    (cr : Option (Bool × List (List Nat))) (st : ClientState)
    (address register : Nat) : Except ClientError Nat × ClientState :=
  let pr := sendCommandBytes jd cr st
    { type := some "read_byte_data", address := some address,
      register := some register }
  match pr.1 with
  | .error e => (.error e, pr.2)
  | .ok resp =>
    match resp.value with
    | some v => (.ok v, pr.2)
    | none => (.error (.keyError "value"), pr.2)

/-- Client operation `write_word_data`. -/
def write_word_data (jd : List Nat → Option Jdict)
    (cr : Option (Bool × List (List Nat))) (st : ClientState)
    (address register value : Nat) : Except ClientError Unit × ClientState :=
  let pr := sendCommandBytes jd cr st
    { type := some "write_word_data", address := some address,
      register := some register, value := some value }
  match pr.1 with
  | .error e => (.error e, pr.2)
  | .ok _ => (.ok (), pr.2)

/-- Client operation `read_word_data`. -/
def read_word_data (jd : List Nat → Option Jdict)
    (cr : Option (Bool × List (List Nat))) (st : ClientState)
    (address register : Nat) : Except ClientError Nat × ClientState :=
  let pr := sendCommandBytes jd cr st
    { type := some "read_word_data", address := some address,
      register := some register }
  match pr.1 with
  | .error e => (.error e, pr.2)
  | .ok resp =>
    match resp.value with
    | some v => (.ok v, pr.2)
    | none => (.error (.keyError "value"), pr.2)

/-- Client operation `write_i2c_block_data`. -/
def write_i2c_block_data (jd : List Nat → Option Jdict)
    (cr : Option (Bool × List (List Nat))) (st : ClientState)
    (address register : Nat) (ds : List Nat) :
    Except ClientError Unit × ClientState :=
  let pr := sendCommandBytes jd cr st
    { type := some "write_i2c_block_data", address := some address,
      register := some register, data := some ds }
  match pr.1 with
  | .error e => (.error e, pr.2)
  | .ok _ => (.ok (), pr.2)

/-- Client operation `read_i2c_block_data`: returns `response['data']`. -/
def read_i2c_block_data (jd : List Nat → Option Jdict)
    (cr : Option (Bool × List (List Nat))) (st : ClientState)
    (address register length : Nat) :
    Except ClientError (List Nat) × ClientState :=
  let pr := sendCommandBytes jd cr st
    { type := some "read_i2c_block_data", address := some address,
      register := some register, length := some length }
  match pr.1 with
  | .error e => (.error e, pr.2)
  | .ok resp =>
    match resp.data with
    | some ds => (.ok ds, pr.2)
    | none => (.error (.keyError "data"), pr.2)

/-- Client operation `scan`: returns `response['devices']`. -/
def scan (jd : List Nat → Option Jdict)
    (cr : Option (Bool × List (List Nat))) (st : ClientState) :
    Except ClientError (List Nat) × ClientState :=
  let pr := sendCommandBytes jd cr st { type := some "scan" }
  match pr.1 with
  | .error e => (.error e, pr.2)
  | .ok resp =>
    match resp.devices with
    | some ds => (.ok ds, pr.2)
    | none => (.error (.keyError "devices"), pr.2)

/-- Client operation `reset_interface`: on a success status return the
message (with a default), otherwise raise `RuntimeError`. -/
def reset_interface (jd : List Nat → Option Jdict)
    (cr : Option (Bool × List (List Nat))) (st : ClientState) :
    Except ClientError String × ClientState :=
  let pr := sendCommandBytes jd cr st { type := some "reset_interface" }
  match pr.1 with
  | .error e => (.error e, pr.2)
  | .ok resp =>
    if resp.status = some "success" then
      (.ok (resp.message.getD "Interface reset successful"), pr.2)
    else (.error (.remoteError (resp.message.getD "Reset failed")), pr.2)

/-- Fake bus driver used by loopback theorems: every operation succeeds,
reads return the configured byte or word `v` and block reads the
configured block `bs`. -/
def fakeDriver (v : Nat) (bs : List Nat) : BusDriver where
  write_byte := fun _ _ => .ok ()
  read_byte := fun _ => .ok v
  write_byte_data := fun _ _ _ => .ok ()
  read_byte_data := fun _ _ => .ok v
  write_word_data := fun _ _ _ => .ok ()
  read_word_data := fun _ _ => .ok v
  write_i2c_block_data := fun _ _ _ => .ok ()
  read_i2c_block_data := fun _ _ _ => .ok bs

/-- Fake bus driver acknowledging only addresses 0x50 and 0x60: a one-byte
read at those addresses succeeds, every other transaction raises the
driver fault for an unacknowledged address. -/
def ackOnly : BusDriver where
  write_byte := fun _ _ => .error "Remote I/O error"
  read_byte := fun a => if a = 80 ∨ a = 96 then .ok 0 else .error "Remote I/O error"
  write_byte_data := fun _ _ _ => .error "Remote I/O error"
  read_byte_data := fun _ _ => .error "Remote I/O error"
  write_word_data := fun _ _ _ => .error "Remote I/O error"
  read_word_data := fun _ _ => .error "Remote I/O error"
  write_i2c_block_data := fun _ _ _ => .error "Remote I/O error"
  read_i2c_block_data := fun _ _ _ => .error "Remote I/O error"

/-- Concrete injective JSON encoder for the five response dictionaries a
loopback exchange over `fakeDriver 7 [1, 2]` produces, used to instantiate
the abstract serialization in witnesses. -/
def encW : Jdict → List Nat := fun r =>
  if r = successResp then [1]
  else if r = successVal 7 then [2]
  else if r = successData [1, 2] then [3]
  else if r = successDevices (List.range' 3 117) then [4]
  else if r = successMsg "I2C interface reset" then [5]
  else [9]

/-- Concrete JSON decoder inverting `encW` on its five encoded response
dictionaries. -/
def jdW : List Nat → Option Jdict := fun bs =>
  if bs = [1] then some successResp
  else if bs = [2] then some (successVal 7)
  else if bs = [3] then some (successData [1, 2])
  else if bs = [4] then some (successDevices (List.range' 3 117))
  else if bs = [5] then some (successMsg "I2C interface reset")
  else none

/-! ### Supporting lemmas about the modelled byte stream -/

theorem recv_flatten (n : Nat) (chunks : List (List Nat)) :
    (recv n chunks).1 ++ (recv n chunks).2.flatten = chunks.flatten := by
  match chunks with
  | [] => simp [recv]
  | c :: rest =>
    simp only [recv]
    split
    · simp
    · simp only [List.flatten_cons, ← List.append_assoc, List.take_append_drop]

theorem recv_length_le (n : Nat) (chunks : List (List Nat)) :
    (recv n chunks).1.length ≤ n := by
  match chunks with
  | [] => simp [recv]
  | c :: rest =>
    simp only [recv]
    split
    · simpa
    · simp [List.length_take]

theorem recv_wf (n : Nat) (chunks : List (List Nat))
    (h : ∀ c ∈ chunks, c ≠ []) : ∀ c ∈ (recv n chunks).2, c ≠ [] := by
  match chunks with
  | [] => simp [recv]
  | c :: rest =>
    simp only [recv]
    split
    · exact fun d hd => h d (List.mem_cons_of_mem _ hd)
    · intro d hd
      rcases List.mem_cons.mp hd with rfl | hd
      · rename_i hlen
        rw [Ne, List.drop_eq_nil_iff]
        omega
      · exact h d (List.mem_cons_of_mem _ hd)

theorem recv_fst_nil_iff (n : Nat) (chunks : List (List Nat))
    (h : ∀ c ∈ chunks, c ≠ []) (hn : 1 ≤ n) :
    (recv n chunks).1 = [] ↔ chunks = [] := by
  match chunks with
  | [] => simp [recv]
  | c :: rest =>
    have hc : c ≠ [] := h c (List.mem_cons_self c rest)
    simp only [recv]
    split
    · simp [hc]
    · rename_i hlen
      rw [List.take_eq_nil_iff]
      simp [hc]
      omega

/-- Full characterization of the fuelled body-accumulation loop: given a
wellformed stream (closure only at its end) and enough fuel, the loop
returns the accumulator extended by exactly the missing number of stream
bytes when the stream holds enough of them, and the zero-length-read
`ConnectionError` when it closes first. -/
theorem recvLoopAux_spec (total : Nat) :
    ∀ (fuel : Nat) (acc : List Nat) (chunks : List (List Nat)),
    (∀ c ∈ chunks, c ≠ []) → acc.length ≤ total → total - acc.length ≤ fuel →
    (total ≤ acc.length + chunks.flatten.length →
      ∃ rest, recvLoopAux total fuel acc chunks
        = .ok (acc ++ chunks.flatten.take (total - acc.length), rest))
    ∧ (acc.length + chunks.flatten.length < total →
      recvLoopAux total fuel acc chunks = .error closedMidBodyMsg) := by
  intro fuel
  induction fuel with
  | zero =>
    intro acc chunks hwf hle hfuel
    have htot : total = acc.length := by omega
    constructor
    · intro _
      refine ⟨chunks, ?_⟩
      simp [recvLoopAux, htot]
    · intro hlt
      omega
  | succ fuel ih =>
    intro acc chunks hwf hle hfuel
    by_cases hguard : acc.length < total
    · have hm : 1 ≤ min 4096 (total - acc.length) := by omega
      rcases hR : recv (min 4096 (total - acc.length)) chunks with ⟨r1, r2⟩
      have hflat := recv_flatten (min 4096 (total - acc.length)) chunks
      have hlen := recv_length_le (min 4096 (total - acc.length)) chunks
      have hwf2 := recv_wf (min 4096 (total - acc.length)) chunks hwf
      rw [hR] at hflat hlen hwf2
      dsimp only at hflat hlen hwf2
      have hminle : min 4096 (total - acc.length) ≤ total - acc.length :=
        Nat.min_le_right _ _
      by_cases hempty : r1 = []
      · have hchunks : chunks = [] := by
          have := recv_fst_nil_iff (min 4096 (total - acc.length)) chunks hwf hm
          rw [hR] at this
          exact this.mp hempty
        subst hchunks
        constructor
        · intro habs
          simp at habs
          omega
        · intro _
          simp [recvLoopAux, if_pos hguard, recv]
      · have hlen1 : 0 < r1.length := List.length_pos.mpr hempty
        have hflatlen : r1.length + r2.flatten.length = chunks.flatten.length := by
          rw [← List.length_append, hflat]
        have hacc2 : (acc ++ r1).length ≤ total := by
          rw [List.length_append]
          omega
        have hfuel2 : total - (acc ++ r1).length ≤ fuel := by
          rw [List.length_append]
          omega
        have hstep : recvLoopAux total (fuel + 1) acc chunks
            = recvLoopAux total fuel (acc ++ r1) r2 := by
          simp only [recvLoopAux, if_pos hguard, hR]
          rw [if_neg (by simp [hempty])]
        obtain ⟨ihok, iherr⟩ := ih (acc ++ r1) r2 hwf2 hacc2 hfuel2
        constructor
        · intro henough
          obtain ⟨rest, hrest⟩ := ihok (by rw [List.length_append]; omega)
          refine ⟨rest, ?_⟩
          rw [hstep, hrest]
          have htake : chunks.flatten.take (total - acc.length)
              = r1 ++ r2.flatten.take (total - acc.length - r1.length) := by
            rw [← hflat, List.take_append_eq_append_take,
              List.take_of_length_le (by omega)]
          rw [htake, ← List.append_assoc]
          have harith : total - (acc ++ r1).length
              = total - acc.length - r1.length := by
            rw [List.length_append]
            omega
          rw [harith]
        · intro hshort
          rw [hstep]
          exact iherr (by rw [List.length_append]; omega)
    · have htot : total = acc.length := by omega
      constructor
      · intro _
        refine ⟨chunks, ?_⟩
        simp [recvLoopAux, htot]
      · intro hlt
        omega

/-- The body loop started empty: it reads exactly `total` bytes off the
stream when they are available before closure, and raises the
zero-length-read `ConnectionError` otherwise. -/
theorem recvLoop_spec (total : Nat) (chunks : List (List Nat))
    (hwf : ∀ c ∈ chunks, c ≠ []) :
    (total ≤ chunks.flatten.length →
      ∃ rest, recvLoop total [] chunks = .ok (chunks.flatten.take total, rest))
    ∧ (chunks.flatten.length < total →
      recvLoop total [] chunks = .error closedMidBodyMsg) := by
  have h := recvLoopAux_spec total total [] chunks hwf (by simp) (by simp)
  simpa [recvLoop] using h

/-- Decoding the big-endian encoding of a 32-bit length recovers it. -/
theorem be32_natTo4 (n : Nat) (h : n < 4294967296) : be32 (natTo4 n) = n := by
  simp only [be32, natTo4, List.foldl]
  omega

theorem natTo4_length (n : Nat) : (natTo4 n).length = 4 := by
  simp [natTo4]

/-- Receiving a single well-framed response delivers exactly its body. -/
theorem recvResponse_frame (enc : Jdict → List Nat) (r : Jdict)
    (hL : (enc r).length < 4294967296) :
    ∃ rest, recvResponse [frame enc r] = .ok (enc r, rest) := by
  by_cases h0 : enc r = []
  · refine ⟨[], ?_⟩
    simp [recvResponse, frame, h0, recv, natTo4, be32, recvLoop, recvLoopAux]
  · have hlen4 : (natTo4 (enc r).length).length = 4 := natTo4_length _
    have hpos : 0 < (enc r).length := List.length_pos.mpr h0
    have hrecv : recv 4 [frame enc r] = (natTo4 (enc r).length, [enc r]) := by
      simp only [recv]
      rw [if_neg (by
        simp only [frame, List.length_append, natTo4_length]
        omega)]
      have ht : (frame enc r).take 4 = natTo4 (enc r).length := by
        rw [frame, List.take_append_eq_append_take, hlen4,
          List.take_of_length_le (le_of_eq hlen4)]
        simp
      have hd : (frame enc r).drop 4 = enc r := by
        rw [frame, List.drop_append_eq_append_drop, hlen4]
        simp [List.drop_eq_nil_iff, le_of_eq hlen4]
      rw [ht, hd]
    obtain ⟨rest, hrest⟩ :=
      (recvLoop_spec (enc r).length [enc r] (by simp [h0])).1 (by simp)
    refine ⟨rest, ?_⟩
    simp only [recvResponse, hrecv]
    rw [if_neg (by simp [hlen4]), be32_natTo4 _ hL]
    rw [hrest]
    simp [List.take_of_length_le]

/-- Behaviour of `_send_command` over a held connected socket whose inbound
stream frames one complete response, split by the three outcomes of
decoding it: a non-error response is returned (socket kept, stream
advanced), an error-status response raises `RuntimeError` discarding the
socket, an undecodable body raises the JSON decode failure discarding the
socket. -/
theorem sendCommand_decoded (jd : List Nat → Option Jdict)
    (cr : Option (Bool × List (List Nat))) (host : String) (port : Nat)
    (chunks : List (List Nat)) (body : List Nat) (rest : List (List Nat))
    (cmd : Cdict) (hrecv : recvResponse chunks = .ok (body, rest)) :
    (∀ r, jd body = some r → r.status ≠ some "error" →
      sendCommandBytes jd cr ⟨host, port, some (.conn true chunks)⟩ cmd
        = (.ok r, ⟨host, port, some (.conn true rest)⟩))
    ∧ (∀ r m, jd body = some r → r.status = some "error" → r.message = some m →
      sendCommandBytes jd cr ⟨host, port, some (.conn true chunks)⟩ cmd
        = (.error (.remoteError m), ⟨host, port, none⟩))
    ∧ (jd body = none →
      sendCommandBytes jd cr ⟨host, port, some (.conn true chunks)⟩ cmd
        = (.error .jsonDecodeError, ⟨host, port, none⟩)) := by
  refine ⟨?_, ?_, ?_⟩
  · intro r hjd hstatus
    simp [sendCommandBytes, runTry, trySend, hrecv, hjd, hstatus]
  · intro r m hjd hstatus hmsg
    simp [sendCommandBytes, runTry, trySend, hrecv, hjd, hstatus, hmsg]
  · intro hjd
    simp [sendCommandBytes, runTry, trySend, hrecv, hjd]

/-! ### Claim theorems -/

/-- Claim C2: for every state of the Bus Driver, the scan command probes
every address from 0x03 through 0x77 inclusive with a one-byte read,
returns exactly the addresses whose read completed without fault in
ascending order, a fault at any address being swallowed without aborting
the scan (the command always returns a success response and leaves the
state unchanged); over a fake driver acknowledging only 0x50 and 0x60 the
result is exactly [0x50, 0x60]. -/
theorem c2_scan (openB : Nat → Except String BusDriver) (st : ServerState) :
    processCommand openB st { type := some "scan" }
        = ⟨successDevices (scanDevices st), st, false⟩
    ∧ (∀ a, a ∈ scanDevices st ↔ 3 ≤ a ∧ a ≤ 119 ∧ (st.readByte a).isOk = true)
    ∧ (scanDevices st).Pairwise (· < ·)
    ∧ (processCommand (fun n => .error "") ⟨some ackOnly, false, 1⟩
        { type := some "scan" }).resp = successDevices [80, 96] := by
  refine ⟨rfl, ?_, ?_, ?_⟩
  · intro a
    simp only [scanDevices, List.mem_filter, List.mem_range'_1]
    constructor
    · rintro ⟨⟨h1, h2⟩, h3⟩
      exact ⟨h1, by omega, h3⟩
    · rintro ⟨h1, h2, h3⟩
      exact ⟨⟨h1, by omega⟩, h3⟩
  · exact List.Pairwise.filter _ (List.pairwise_lt_range' ..)
  · decide

/-- Claim C2 witness: the general characterization instantiated at the
fake driver acknowledging only 0x50 and 0x60. -/
theorem c2_scan_witness :
    80 ∈ scanDevices ⟨some ackOnly, false, 1⟩
      ↔ 3 ≤ 80 ∧ 80 ≤ 119
        ∧ ((⟨some ackOnly, false, 1⟩ : ServerState).readByte 80).isOk = true :=
  (c2_scan (fun _ => .error "") ⟨some ackOnly, false, 1⟩).2.1 80

/-- Claim C3: `process_command` is total — for every command dictionary
and every bus state its response has status success or status error and
never both, every error response carries a message, and for each
recognized command variant a bus-driver fault with message `m` is
converted into exactly the error response carrying `m`. -/
theorem c3_dispatch (openB : Nat → Except String BusDriver) (st : ServerState) :
    (∀ c : Cdict,
      (((processCommand openB st c).resp.status = some "success"
          ∧ (processCommand openB st c).resp.status ≠ some "error")
        ∨ ((processCommand openB st c).resp.status = some "error"
          ∧ (processCommand openB st c).resp.status ≠ some "success"))
      ∧ ((processCommand openB st c).resp.status = some "error"
          → (processCommand openB st c).resp.message.isSome = true))
    ∧ (∀ a v m, st.writeByte a v = .error m →
        (processCommand openB st
          { type := some "write_byte", address := some a, value := some v }).resp
          = errorResp m)
    ∧ (∀ a m, st.readByte a = .error m →
        (processCommand openB st
          { type := some "read_byte", address := some a }).resp = errorResp m)
    ∧ (∀ a r v m, st.writeByteData a r v = .error m →
        (processCommand openB st
          { type := some "write_byte_data", address := some a,
            register := some r, value := some v }).resp = errorResp m)
    ∧ (∀ a r m, st.readByteData a r = .error m →
        (processCommand openB st
          { type := some "read_byte_data", address := some a,
            register := some r }).resp = errorResp m)
    ∧ (∀ a r v m, st.writeWordData a r v = .error m →
        (processCommand openB st
          { type := some "write_word_data", address := some a,
            register := some r, value := some v }).resp = errorResp m)
    ∧ (∀ a r m, st.readWordData a r = .error m →
        (processCommand openB st
          { type := some "read_word_data", address := some a,
            register := some r }).resp = errorResp m)
    ∧ (∀ a r ds m, st.writeBlockData a r ds = .error m →
        (processCommand openB st
          { type := some "write_i2c_block_data", address := some a,
            register := some r, data := some ds }).resp = errorResp m)
    ∧ (∀ a r n m, st.readBlockData a r n = .error m →
        (processCommand openB st
          { type := some "read_i2c_block_data", address := some a,
            register := some r, length := some n }).resp = errorResp m) := by
  refine ⟨?_, ?_, ?_, ?_, ?_, ?_, ?_, ?_, ?_⟩
  · intro c
    unfold processCommand
    rcases htype : c.type with _ | t
    · simp [errorResp]
    · by_cases h1 : t = "write_byte"
      · subst h1
        rw [if_pos rfl]
        rcases c.address with _ | a
        · simp [errorResp]
        · rcases c.value with _ | v
          · simp [errorResp]
          · rcases hw : st.writeByte a v with u | m <;> simp [hw, successResp, errorResp]
      · rw [if_neg (by simp [h1])]
        by_cases h2 : t = "read_byte"
        · subst h2
          rw [if_pos rfl]
          rcases c.address with _ | a
          · simp [errorResp]
          · rcases hw : st.readByte a with u | m <;> simp [hw, successVal, errorResp]
        · rw [if_neg (by simp [h2])]
          by_cases h3 : t = "write_byte_data"
          · subst h3
            rw [if_pos rfl]
            rcases c.address with _ | a
            · simp [errorResp]
            · rcases c.register with _ | r
              · simp [errorResp]
              · rcases c.value with _ | v
                · simp [errorResp]
                · rcases hw : st.writeByteData a r v with u | m <;>
                    simp [hw, successResp, errorResp]
          · rw [if_neg (by simp [h3])]
            by_cases h4 : t = "read_byte_data"
            · subst h4
              rw [if_pos rfl]
              rcases c.address with _ | a
              · simp [errorResp]
              · rcases c.register with _ | r
                · simp [errorResp]
                · rcases hw : st.readByteData a r with u | m <;>
                    simp [hw, successVal, errorResp]
            · rw [if_neg (by simp [h4])]
              by_cases h5 : t = "write_word_data"
              · subst h5
                rw [if_pos rfl]
                rcases c.address with _ | a
                · simp [errorResp]
                · rcases c.register with _ | r
                  · simp [errorResp]
                  · rcases c.value with _ | v
                    · simp [errorResp]
                    · rcases hw : st.writeWordData a r v with u | m <;>
                        simp [hw, successResp, errorResp]
              · rw [if_neg (by simp [h5])]
                by_cases h6 : t = "read_word_data"
                · subst h6
                  rw [if_pos rfl]
                  rcases c.address with _ | a
                  · simp [errorResp]
                  · rcases c.register with _ | r
                    · simp [errorResp]
                    · rcases hw : st.readWordData a r with u | m <;>
                        simp [hw, successVal, errorResp]
                · rw [if_neg (by simp [h6])]
                  by_cases h7 : t = "write_i2c_block_data"
                  · subst h7
                    rw [if_pos rfl]
                    rcases c.address with _ | a
                    · simp [errorResp]
                    · rcases c.register with _ | r
                      · simp [errorResp]
                      · rcases c.data with _ | ds
                        · simp [errorResp]
                        · rcases hw : st.writeBlockData a r ds with u | m <;>
                            simp [hw, successResp, errorResp]
                  · rw [if_neg (by simp [h7])]
                    by_cases h8 : t = "read_i2c_block_data"
                    · subst h8
                      rw [if_pos rfl]
                      rcases c.address with _ | a
                      · simp [errorResp]
                      · rcases c.register with _ | r
                        · simp [errorResp]
                        · rcases c.length with _ | n
                          · simp [errorResp]
                          · rcases hw : st.readBlockData a r n with u | m <;>
                              simp [hw, successData, errorResp]
                    · rw [if_neg (by simp [h8])]
                      by_cases h9 : t = "scan"
                      · subst h9
                        rw [if_pos rfl]
                        simp [successDevices]
                      · rw [if_neg (by simp [h9])]
                        by_cases h10 : t = "reset_interface"
                        · subst h10
                          rw [if_pos rfl]
                          rcases ho : openB st.bus_number with b | e <;>
                            simp [ho, successMsg, errorResp]
                        · rw [if_neg (by simp [h10])]
                          simp [errorResp]
  · intro a v m h
    simp [processCommand, h]
  · intro a m h
    simp [processCommand, h]
  · intro a r v m h
    simp [processCommand, h]
  · intro a r m h
    simp [processCommand, h]
  · intro a r v m h
    simp [processCommand, h]
  · intro a r m h
    simp [processCommand, h]
  · intro a r ds m h
    simp [processCommand, h]
  · intro a r n m h
    simp [processCommand, h]

/-- Claim C3 witness: a concrete driver fault (no device acknowledging
address 5) is converted into the error response carrying its message. -/
theorem c3_dispatch_witness :
    (processCommand (fun _ => .error "open failed") ⟨some ackOnly, false, 1⟩
      { type := some "read_byte", address := some 5 }).resp
      = errorResp "Remote I/O error" :=
  (c3_dispatch (fun _ => .error "open failed") ⟨some ackOnly, false, 1⟩).2.2.1
    5 "Remote I/O error" rfl

/-- Claim C9: `reset_interface` closes the current bus handle exactly when
one is held, reopens against the same bus number; on a successful reopen
it returns the success confirmation and installs the fresh handle; on a
failed reopen it returns an error response carrying the underlying fault
message, keeps the old (now closed) handle and the same bus number, and
when a handle was held it is left unusable (every subsequent bus operation
faults) until a further reset succeeds. -/
theorem c9_reset (openB : Nat → Except String BusDriver) (st : ServerState) :
    (processCommand openB st { type := some "reset_interface" }).closedOld
        = st.bus.isSome
    ∧ (∀ b, openB st.bus_number = .ok b →
        processCommand openB st { type := some "reset_interface" }
          = ⟨successMsg "I2C interface reset",
              ⟨some b, false, st.bus_number⟩, st.bus.isSome⟩)
    ∧ (∀ e, openB st.bus_number = .error e →
        (processCommand openB st { type := some "reset_interface" }).resp
            = errorResp ("Reset failed: " ++ e)
        ∧ (processCommand openB st { type := some "reset_interface" }).state.bus
            = st.bus
        ∧ (processCommand openB st
              { type := some "reset_interface" }).state.bus_number
            = st.bus_number
        ∧ (st.bus.isSome = true → ∀ a,
            (processCommand openB st
              { type := some "reset_interface" }).state.readByte a
              = .error closedBusMsg)) := by
  refine ⟨?_, ?_, ?_⟩
  · rcases ho : openB st.bus_number with e | b <;> simp [processCommand, ho]
  · intro b h
    simp [processCommand, h]
  · intro e h
    refine ⟨by simp [processCommand, h], by simp [processCommand, h],
      by simp [processCommand, h], ?_⟩
    intro hsome a
    rcases hb : st.bus with _ | b
    · rw [hb] at hsome
      simp at hsome
    · simp [processCommand, h, ServerState.readByte, ServerState.busCall, hb]

/-- Claim C9 witness: a failed reopen over a held handle returns the error
response carrying the fault message. -/
theorem c9_reset_witness :
    (processCommand (fun _ => .error "open failed") ⟨some ackOnly, false, 1⟩
      { type := some "reset_interface" }).resp
      = errorResp ("Reset failed: " ++ "open failed") :=
  ((c9_reset (fun _ => .error "open failed") ⟨some ackOnly, false, 1⟩).2.2
    "open failed" rfl).1

/-- Claim C7: any exception during send or receive closes and discards the
client socket (sets it to `None`) before re-raising — the only erroring
path that leaves a socket behind is the connect failure itself, which
raises the `ConnectionError` naming host and port and leaves the fresh
unconnected socket object; when no socket is open the operation connects
first and proceeds over the fresh socket, with no retry inside the
operation (the erroring call returns that error). -/
theorem c7_discard (jd : List Nat → Option Jdict)
    (cr : Option (Bool × List (List Nat))) (st : ClientState) (cmd : Cdict) :
    (∀ e st2, sendCommandBytes jd cr st cmd = (.error e, st2) →
      st2.socket = none
      ∨ (st.socket = none ∧ cr = none
          ∧ e = .connectionError (cannotConnectMsg st.host st.port)
          ∧ st2 = { st with socket := some .dead }))
    ∧ (st.socket = none → cr = none →
        sendCommandBytes jd cr st cmd
          = (.error (.connectionError (cannotConnectMsg st.host st.port)),
             { st with socket := some .dead }))
    ∧ (∀ sendOk chunks, st.socket = none → cr = some (sendOk, chunks) →
        sendCommandBytes jd cr st cmd
          = runTry jd { st with socket := some (.conn sendOk chunks) }
              (.conn sendOk chunks)) := by
  refine ⟨?_, ?_, ?_⟩
  · intro e st2 h
    rcases hsk : st.socket with _ | sk
    · rcases hcr : cr with _ | p
      · right
        simp only [sendCommandBytes, hsk, hcr, Prod.mk.injEq,
          Except.error.injEq] at h
        exact ⟨rfl, rfl, h.1.symm, h.2.symm⟩
      · left
        rcases p with ⟨sendOk, chunks⟩
        simp only [sendCommandBytes, hsk, hcr] at h
        rcases ht : trySend jd (.conn sendOk chunks) with e2 | pr
        · simp only [runTry, ht, Prod.mk.injEq] at h
          rw [← h.2]
        · simp only [runTry, ht] at h
          simp at h
    · left
      simp only [sendCommandBytes, hsk] at h
      rcases ht : trySend jd sk with e2 | pr
      · simp only [runTry, ht, Prod.mk.injEq] at h
        rw [← h.2]
      · simp only [runTry, ht] at h
        simp at h
  · intro h1 h2
    simp [sendCommandBytes, h1, h2]
  · intro sendOk chunks h1 h2
    simp [sendCommandBytes, h1, h2]

/-- Claim C7 witness: a send failure on a held (dead) socket discards the
socket. -/
theorem c7_discard_witness :
    (⟨"h", 1, none⟩ : ClientState).socket = none
    ∨ ((⟨"h", 1, some Sock.dead⟩ : ClientState).socket = none
        ∧ (none : Option (Bool × List (List Nat))) = none
        ∧ ClientError.osError "Transport endpoint is not connected"
          = .connectionError (cannotConnectMsg "h" 1)
        ∧ (⟨"h", 1, none⟩ : ClientState)
          = { (⟨"h", 1, some Sock.dead⟩ : ClientState) with socket := some .dead }) :=
  (c7_discard (fun _ => none) none ⟨"h", 1, some Sock.dead⟩
      { type := some "scan" }).1
    (.osError "Transport endpoint is not connected") ⟨"h", 1, none⟩ rfl

/-- Claim C10: a server-reported command error (decoded response with
status error) makes the client close and discard its socket before the
`RuntimeError` propagates, so the next call must reconnect. -/
theorem c10_remote_error_discards (jd : List Nat → Option Jdict)
    (cr : Option (Bool × List (List Nat))) (st : ClientState) (cmd : Cdict) :
    (∀ m st2, sendCommandBytes jd cr st cmd = (.error (.remoteError m), st2) →
      st2.socket = none)
    ∧ (∀ host port chunks body rest r m,
        recvResponse chunks = .ok (body, rest) → jd body = some r →
        r.status = some "error" → r.message = some m →
        sendCommandBytes jd cr ⟨host, port, some (.conn true chunks)⟩ cmd
          = (.error (.remoteError m), ⟨host, port, none⟩)) := by
  constructor
  · intro m st2 h
    rcases hsk : st.socket with _ | sk
    · rcases hcr : cr with _ | p
      · simp only [sendCommandBytes, hsk, hcr, Prod.mk.injEq,
          Except.error.injEq] at h
        simp at h
      · rcases p with ⟨sendOk, chunks⟩
        simp only [sendCommandBytes, hsk, hcr] at h
        rcases ht : trySend jd (.conn sendOk chunks) with e2 | pr
        · simp only [runTry, ht, Prod.mk.injEq] at h
          rw [← h.2]
        · simp only [runTry, ht] at h
          simp at h
    · simp only [sendCommandBytes, hsk] at h
      rcases ht : trySend jd sk with e2 | pr
      · simp only [runTry, ht, Prod.mk.injEq] at h
        rw [← h.2]
      · simp only [runTry, ht] at h
        simp at h
  · intro host port chunks body rest r m hrecv hjd hstatus hmsg
    exact (sendCommand_decoded jd cr host port chunks body rest cmd hrecv).2.1
      r m hjd hstatus hmsg

/-- Claim C10 witness: a concrete framed error response discards the
socket while raising the server-supplied message. -/
theorem c10_remote_error_discards_witness :
    sendCommandBytes
        (fun bs => if bs = [1] then some (errorResp "boom") else none) none
        ⟨"h", 1, some (Sock.conn true [[0, 0, 0, 1], [1]])⟩
        { type := some "read_byte", address := some 5 }
      = (.error (.remoteError "boom"), ⟨"h", 1, none⟩) :=
  (c10_remote_error_discards
      (fun bs => if bs = [1] then some (errorResp "boom") else none) none
      ⟨"h", 1, some (Sock.conn true [[0, 0, 0, 1], [1]])⟩
      { type := some "read_byte", address := some 5 }).2
    "h" 1 [[0, 0, 0, 1], [1]] [1] [] (errorResp "boom") "boom" rfl rfl rfl rfl

/-- Claim C5: whenever the decoded response reports status error with the
server-supplied message `m`, `_send_command` — and with it every client
operation — fails with the `RuntimeError` (RemoteError) carrying `m`. -/
theorem c5_remote_error (jd : List Nat → Option Jdict)
    (cr : Option (Bool × List (List Nat))) (host : String) (port : Nat)
    (chunks : List (List Nat)) (body : List Nat) (rest : List (List Nat))
    (r : Jdict) (m : String) (a reg v ln : Nat) (ds : List Nat)
    (hrecv : recvResponse chunks = .ok (body, rest))
    (hjd : jd body = some r) (hstatus : r.status = some "error")
    (hmsg : r.message = some m) :
    (∀ cmd, sendCommandBytes jd cr ⟨host, port, some (.conn true chunks)⟩ cmd
        = (.error (.remoteError m), ⟨host, port, none⟩))
    ∧ (write_byte jd cr ⟨host, port, some (.conn true chunks)⟩ a v).1
        = .error (.remoteError m)
    ∧ (read_byte jd cr ⟨host, port, some (.conn true chunks)⟩ a).1
        = .error (.remoteError m)
    ∧ (write_byte_data jd cr ⟨host, port, some (.conn true chunks)⟩ a reg v).1
        = .error (.remoteError m)
    ∧ (read_byte_data jd cr ⟨host, port, some (.conn true chunks)⟩ a reg).1
        = .error (.remoteError m)
    ∧ (write_word_data jd cr ⟨host, port, some (.conn true chunks)⟩ a reg v).1
        = .error (.remoteError m)
    ∧ (read_word_data jd cr ⟨host, port, some (.conn true chunks)⟩ a reg).1
        = .error (.remoteError m)
    ∧ (write_i2c_block_data jd cr ⟨host, port, some (.conn true chunks)⟩ a reg ds).1
        = .error (.remoteError m)
    ∧ (read_i2c_block_data jd cr ⟨host, port, some (.conn true chunks)⟩ a reg ln).1
        = .error (.remoteError m)
    ∧ (scan jd cr ⟨host, port, some (.conn true chunks)⟩).1
        = .error (.remoteError m)
    ∧ (reset_interface jd cr ⟨host, port, some (.conn true chunks)⟩).1
        = .error (.remoteError m) := by
  have hsend : ∀ cmd, sendCommandBytes jd cr ⟨host, port, some (.conn true chunks)⟩ cmd
      = (.error (.remoteError m), ⟨host, port, none⟩) := fun cmd =>
    (sendCommand_decoded jd cr host port chunks body rest cmd hrecv).2.1
      r m hjd hstatus hmsg
  refine ⟨hsend, ?_, ?_, ?_, ?_, ?_, ?_, ?_, ?_, ?_, ?_⟩ <;>
    simp [write_byte, read_byte, write_byte_data, read_byte_data,
      write_word_data, read_word_data, write_i2c_block_data,
      read_i2c_block_data, scan, reset_interface, hsend]

/-- Claim C5 witness: the read_byte operation raising the server message
of a concrete framed error response. -/
theorem c5_remote_error_witness :
    (read_byte (fun bs => if bs = [1] then some (errorResp "boom") else none)
        none ⟨"h", 1, some (Sock.conn true [[0, 0, 0, 1], [1]])⟩ 5).1
      = .error (.remoteError "boom") :=
  (c5_remote_error
      (fun bs => if bs = [1] then some (errorResp "boom") else none) none
      "h" 1 [[0, 0, 0, 1], [1]] [1] [] (errorResp "boom") "boom" 5 0 0 0 []
      rfl rfl rfl rfl).2.2.1

/-- Claim C4: on a success response whose operation-specific payload field
is absent, each read operation fails with the `KeyError` on that field —
classified ProtocolError by the spec taxonomy — and a response body that
fails JSON decoding fails with the decode error, likewise a
ProtocolError. -/
theorem c4_protocol_error (jd : List Nat → Option Jdict)
    (enc : Jdict → List Nat) (cr : Option (Bool × List (List Nat)))
    (host : String) (port : Nat) (r : Jdict) (a reg ln : Nat)
    (hL : (enc r).length < 4294967296) (hjd : jd (enc r) = some r)
    (hstatus : r.status ≠ some "error") :
    (r.value = none →
      (read_byte jd cr ⟨host, port, some (.conn true [frame enc r])⟩ a).1
          = .error (.keyError "value")
      ∧ (read_byte_data jd cr ⟨host, port, some (.conn true [frame enc r])⟩
          a reg).1 = .error (.keyError "value")
      ∧ (read_word_data jd cr ⟨host, port, some (.conn true [frame enc r])⟩
          a reg).1 = .error (.keyError "value"))
    ∧ (r.data = none →
      (read_i2c_block_data jd cr ⟨host, port, some (.conn true [frame enc r])⟩
          a reg ln).1 = .error (.keyError "data"))
    ∧ (r.devices = none →
      (scan jd cr ⟨host, port, some (.conn true [frame enc r])⟩).1
          = .error (.keyError "devices"))
    ∧ (∀ f, (ClientError.keyError f).isProtocolError = true)
    ∧ ClientError.jsonDecodeError.isProtocolError = true
    ∧ (∀ chunks body rest, recvResponse chunks = .ok (body, rest) →
        jd body = none →
        (read_byte jd cr ⟨host, port, some (.conn true chunks)⟩ a).1
            = .error .jsonDecodeError
        ∧ (read_byte_data jd cr ⟨host, port, some (.conn true chunks)⟩ a reg).1
            = .error .jsonDecodeError
        ∧ (read_word_data jd cr ⟨host, port, some (.conn true chunks)⟩ a reg).1
            = .error .jsonDecodeError
        ∧ (read_i2c_block_data jd cr ⟨host, port, some (.conn true chunks)⟩
            a reg ln).1 = .error .jsonDecodeError
        ∧ (scan jd cr ⟨host, port, some (.conn true chunks)⟩).1
            = .error .jsonDecodeError) := by
  obtain ⟨rest, hrest⟩ := recvResponse_frame enc r hL
  have hsend : ∀ cmd,
      sendCommandBytes jd cr ⟨host, port, some (.conn true [frame enc r])⟩ cmd
        = (.ok r, ⟨host, port, some (.conn true rest)⟩) := fun cmd =>
    (sendCommand_decoded jd cr host port [frame enc r] (enc r) rest cmd
      hrest).1 r hjd hstatus
  refine ⟨?_, ?_, ?_, fun f => rfl, rfl, ?_⟩
  · intro hv
    refine ⟨?_, ?_, ?_⟩ <;>
      simp [read_byte, read_byte_data, read_word_data, hsend, hv]
  · intro hd
    simp [read_i2c_block_data, hsend, hd]
  · intro hd
    simp [scan, hsend, hd]
  · intro chunks body rest2 hrecv2 hjd2
    have hsend2 : ∀ cmd,
        sendCommandBytes jd cr ⟨host, port, some (.conn true chunks)⟩ cmd
          = (.error .jsonDecodeError, ⟨host, port, none⟩) := fun cmd =>
      (sendCommand_decoded jd cr host port chunks body rest2 cmd hrecv2).2.2 hjd2
    refine ⟨?_, ?_, ?_, ?_, ?_⟩ <;>
      simp [read_byte, read_byte_data, read_word_data, read_i2c_block_data,
        scan, hsend2]

/-- Claim C4 witness: a success response with no `value` field makes
read_byte fail with the KeyError on `value`. -/
theorem c4_protocol_error_witness :
    (read_byte (fun bs => if bs = [1] then some successResp else none) none
        ⟨"h", 1, some (Sock.conn true [frame (fun _ => [1]) successResp])⟩ 5).1
      = .error (.keyError "value") :=
  ((c4_protocol_error (fun bs => if bs = [1] then some successResp else none)
      (fun _ => [1]) none "h" 1 successResp 5 0 0 (by decide) (by decide)
      (by decide)).1 rfl).1

/-- Claim C6 (amended): the response read loop fails with the short-read
`ConnectionError` exactly when the single `recv(4)` call for the length
prefix returns other than 4 bytes — which covers closure before 4 bytes
but also a short read with the prefix split across arrivals — and with the
mid-body `ConnectionError` exactly when the stream closes before the
declared body length arrives; otherwise it accumulates body bytes across
receive calls until exactly the declared number has been read. -/
theorem c6_read_loop (chunks : List (List Nat))
    (hwf : ∀ c ∈ chunks, c ≠ []) :
    ((recv 4 chunks).1.length ≠ 4 →
      recvResponse chunks = .error shortLenMsg)
    ∧ ((recv 4 chunks).1.length = 4 →
      (be32 (recv 4 chunks).1 ≤ ((recv 4 chunks).2.flatten).length →
        ∃ rest, recvResponse chunks
          = .ok (((recv 4 chunks).2.flatten).take (be32 (recv 4 chunks).1), rest)
          ∧ (((recv 4 chunks).2.flatten).take (be32 (recv 4 chunks).1)).length
            = be32 (recv 4 chunks).1)
      ∧ (((recv 4 chunks).2.flatten).length < be32 (recv 4 chunks).1 →
        recvResponse chunks = .error closedMidBodyMsg)) := by
  constructor
  · intro h
    simp only [recvResponse]
    rw [if_pos h]
  · intro h4
    have hwf2 := recv_wf 4 chunks hwf
    have hspec := recvLoop_spec (be32 (recv 4 chunks).1) (recv 4 chunks).2 hwf2
    constructor
    · intro hle
      obtain ⟨rest, hrest⟩ := hspec.1 hle
      refine ⟨rest, ?_, ?_⟩
      · simp only [recvResponse]
        rw [if_neg (by simp [h4])]
        exact hrest
      · exact List.length_take_of_le hle
    · intro hlt
      simp only [recvResponse]
      rw [if_neg (by simp [h4])]
      exact hspec.2 hlt

/-- Claim C6 witness: a stream that closes after a one-byte prefix read
fails with the short-read error. -/
theorem c6_read_loop_witness :
    recvResponse [[0], [65]] = .error shortLenMsg :=
  (c6_read_loop [[0], [65]] (by decide)).1 (by decide)

/-- Claim C6 counterexample: all four length-prefix bytes (and the whole
declared body) arrive before any closure, merely split one byte per
receive call, yet the read loop still fails — so the loop does not fail
only when fewer than 4 prefix bytes arrive before the stream closes. -/
theorem c6_counterexample :
    recvResponse [[0], [0], [0], [2], [65], [66]] = .error shortLenMsg
    ∧ (∀ c ∈ [[0], [0], [0], [2], [65], [66]], c ≠ ([] : List Nat))
    ∧ ([[0], [0], [0], [2], [65], [66]] : List (List Nat)).flatten.length = 6 :=
  ⟨rfl, by decide, by decide⟩

/-- Claim C8 (amended): a received byte sequence that decodes as UTF-8 but
fails JSON parsing gets the framed invalid-JSON response and the loop
continues with the same state (a following well-formed command is
dispatched normally); a byte sequence that is not valid UTF-8 instead
raises `UnicodeDecodeError`, which the JSON-only handler does not catch,
terminating that client loop with no response. -/
theorem c8_invalid_json (jload : List Nat → Option Cdict)
    (enc : Jdict → List Nat) (openB : Nat → Except String BusDriver)
    (st : ServerState) (d : List Nat) (rest : List (List Nat))
    (s : List Nat) (hne : d ≠ []) :
    (utf8Decode d = some s → jload s = none →
      handleClient jload enc openB st (d :: rest)
        = (frame enc invalidJsonResp :: (handleClient jload enc openB st rest).1,
           (handleClient jload enc openB st rest).2))
    ∧ (∀ cmd, utf8Decode d = some s → jload s = some cmd →
      handleClient jload enc openB st (d :: rest)
        = (frame enc (processCommand openB st cmd).resp
            :: (handleClient jload enc openB (processCommand openB st cmd).state
                rest).1,
           (handleClient jload enc openB (processCommand openB st cmd).state
            rest).2))
    ∧ (utf8Decode d = none →
      handleClient jload enc openB st (d :: rest) = ([], st)) := by
  rcases d with _ | ⟨b, bs⟩
  · exact absurd rfl hne
  · refine ⟨?_, ?_, ?_⟩
    · intro h1 h2
      simp [handleClient, h1, h2]
    · intro cmd h1 h2
      simp [handleClient, h1, h2]
    · intro h1
      simp [handleClient, h1]

/-- Claim C8 witness: a UTF-8-decodable but non-JSON command byte gets the
framed invalid-JSON response and the loop continues. -/
theorem c8_invalid_json_witness :
    handleClient (fun _ => none) (fun _ => [1]) (fun _ => .error "e")
        ⟨none, false, 1⟩ [[123]]
      = ([frame (fun _ => [1]) invalidJsonResp], ⟨none, false, 1⟩) := by
  have h := (c8_invalid_json (fun _ => none) (fun _ => [1])
    (fun _ => .error "e") ⟨none, false, 1⟩ [123] [] [123] (by decide)).1 rfl rfl
  simpa [handleClient] using h

/-- Claim C8 counterexample: the byte 0xFF is not valid UTF-8, so this
received byte sequence fails to parse as JSON, yet the server emits no
response at all and its per-client loop terminates — the following
well-formed-looking command is never answered — contradicting the claim
that every non-JSON byte sequence gets an invalid-JSON response with the
connection remaining usable. -/
theorem c8_counterexample :
    handleClient (fun _ => none) (fun _ => [1]) (fun _ => .error "e")
        ⟨none, false, 1⟩ [[255], [32]]
      = ([], ⟨none, false, 1⟩)
    ∧ frame (fun _ => [1]) invalidJsonResp ≠ [] :=
  ⟨rfl, by decide⟩

/-- Claim C1: loopback round trip for every supported command variant —
the client operation builds its command dictionary, `process_command`
backed by a fake bus driver configured to return `v` (and block `bs`)
produces the response, and the client receives that response framed on the
wire and returns exactly the driver-configured result: byte, register and
word reads return `v`, the block read returns `bs`, the four write
variants return with no payload, scan returns the scanned device list and
reset_interface the confirmation message.  The abstract JSON codec is
assumed faithful on the five response shapes involved. -/
theorem c1_roundtrip (enc : Jdict → List Nat) (jd : List Nat → Option Jdict)
    (cr : Option (Bool × List (List Nat))) (host : String) (port : Nat)
    (v : Nat) (bs : List Nat) (a reg ln bn : Nat) (b2 : BusDriver)
    (h1 : jd (enc successResp) = some successResp)
    (hL1 : (enc successResp).length < 4294967296)
    (h2 : jd (enc (successVal v)) = some (successVal v))
    (hL2 : (enc (successVal v)).length < 4294967296)
    (h3 : jd (enc (successData bs)) = some (successData bs))
    (hL3 : (enc (successData bs)).length < 4294967296)
    (h4 : jd (enc (successDevices
        (scanDevices ⟨some (fakeDriver v bs), false, bn⟩)))
      = some (successDevices (scanDevices ⟨some (fakeDriver v bs), false, bn⟩)))
    (hL4 : (enc (successDevices
        (scanDevices ⟨some (fakeDriver v bs), false, bn⟩))).length < 4294967296)
    (h5 : jd (enc (successMsg "I2C interface reset"))
      = some (successMsg "I2C interface reset"))
    (hL5 : (enc (successMsg "I2C interface reset")).length < 4294967296) :
    (write_byte jd cr ⟨host, port, some (.conn true [frame enc
        ((processCommand (fun _ => .ok b2) ⟨some (fakeDriver v bs), false, bn⟩
          { type := some "write_byte", address := some a,
            value := some v }).resp)])⟩ a v).1 = .ok ()
    ∧ (read_byte jd cr ⟨host, port, some (.conn true [frame enc
        ((processCommand (fun _ => .ok b2) ⟨some (fakeDriver v bs), false, bn⟩
          { type := some "read_byte", address := some a }).resp)])⟩ a).1
        = .ok v
    ∧ (write_byte_data jd cr ⟨host, port, some (.conn true [frame enc
        ((processCommand (fun _ => .ok b2) ⟨some (fakeDriver v bs), false, bn⟩
          { type := some "write_byte_data", address := some a,
            register := some reg, value := some v }).resp)])⟩ a reg v).1
        = .ok ()
    ∧ (read_byte_data jd cr ⟨host, port, some (.conn true [frame enc
        ((processCommand (fun _ => .ok b2) ⟨some (fakeDriver v bs), false, bn⟩
          { type := some "read_byte_data", address := some a,
            register := some reg }).resp)])⟩ a reg).1 = .ok v
    ∧ (write_word_data jd cr ⟨host, port, some (.conn true [frame enc
        ((processCommand (fun _ => .ok b2) ⟨some (fakeDriver v bs), false, bn⟩
          { type := some "write_word_data", address := some a,
            register := some reg, value := some v }).resp)])⟩ a reg v).1
        = .ok ()
    ∧ (read_word_data jd cr ⟨host, port, some (.conn true [frame enc
        ((processCommand (fun _ => .ok b2) ⟨some (fakeDriver v bs), false, bn⟩
          { type := some "read_word_data", address := some a,
            register := some reg }).resp)])⟩ a reg).1 = .ok v
    ∧ (write_i2c_block_data jd cr ⟨host, port, some (.conn true [frame enc
        ((processCommand (fun _ => .ok b2) ⟨some (fakeDriver v bs), false, bn⟩
          { type := some "write_i2c_block_data", address := some a,
            register := some reg, data := some bs }).resp)])⟩ a reg bs).1
        = .ok ()
    ∧ (read_i2c_block_data jd cr ⟨host, port, some (.conn true [frame enc
        ((processCommand (fun _ => .ok b2) ⟨some (fakeDriver v bs), false, bn⟩
          { type := some "read_i2c_block_data", address := some a,
            register := some reg, length := some ln }).resp)])⟩ a reg ln).1
        = .ok bs
    ∧ (scan jd cr ⟨host, port, some (.conn true [frame enc
        ((processCommand (fun _ => .ok b2) ⟨some (fakeDriver v bs), false, bn⟩
          { type := some "scan" }).resp)])⟩).1
        = .ok (scanDevices ⟨some (fakeDriver v bs), false, bn⟩)
    ∧ (reset_interface jd cr ⟨host, port, some (.conn true [frame enc
        ((processCommand (fun _ => .ok b2) ⟨some (fakeDriver v bs), false, bn⟩
          { type := some "reset_interface" }).resp)])⟩).1
        = .ok "I2C interface reset" := by
  refine ⟨?_, ?_, ?_, ?_, ?_, ?_, ?_, ?_, ?_, ?_⟩
  · rw [show (processCommand (fun _ => .ok b2)
        ⟨some (fakeDriver v bs), false, bn⟩
        { type := some "write_byte", address := some a,
          value := some v }).resp = successResp from rfl]
    obtain ⟨rest, hrest⟩ := recvResponse_frame enc successResp hL1
    have hsend := fun cmd => (sendCommand_decoded jd cr host port
      [frame enc successResp] (enc successResp) rest cmd hrest).1
      successResp h1 (by decide)
    simp [write_byte, hsend]
  · rw [show (processCommand (fun _ => .ok b2)
        ⟨some (fakeDriver v bs), false, bn⟩
        { type := some "read_byte", address := some a }).resp
        = successVal v from rfl]
    obtain ⟨rest, hrest⟩ := recvResponse_frame enc (successVal v) hL2
    have hsend := fun cmd => (sendCommand_decoded jd cr host port
      [frame enc (successVal v)] (enc (successVal v)) rest cmd hrest).1
      (successVal v) h2 (by simp [successVal])
    simp only [read_byte]
    rw [hsend]
    simp [successVal]
  · rw [show (processCommand (fun _ => .ok b2)
        ⟨some (fakeDriver v bs), false, bn⟩
        { type := some "write_byte_data", address := some a,
          register := some reg, value := some v }).resp = successResp from rfl]
    obtain ⟨rest, hrest⟩ := recvResponse_frame enc successResp hL1
    have hsend := fun cmd => (sendCommand_decoded jd cr host port
      [frame enc successResp] (enc successResp) rest cmd hrest).1
      successResp h1 (by decide)
    simp [write_byte_data, hsend]
  · rw [show (processCommand (fun _ => .ok b2)
        ⟨some (fakeDriver v bs), false, bn⟩
        { type := some "read_byte_data", address := some a,
          register := some reg }).resp = successVal v from rfl]
    obtain ⟨rest, hrest⟩ := recvResponse_frame enc (successVal v) hL2
    have hsend := fun cmd => (sendCommand_decoded jd cr host port
      [frame enc (successVal v)] (enc (successVal v)) rest cmd hrest).1
      (successVal v) h2 (by simp [successVal])
    simp only [read_byte_data]
    rw [hsend]
    simp [successVal]
  · rw [show (processCommand (fun _ => .ok b2)
        ⟨some (fakeDriver v bs), false, bn⟩
        { type := some "write_word_data", address := some a,
          register := some reg, value := some v }).resp = successResp from rfl]
    obtain ⟨rest, hrest⟩ := recvResponse_frame enc successResp hL1
    have hsend := fun cmd => (sendCommand_decoded jd cr host port
      [frame enc successResp] (enc successResp) rest cmd hrest).1
      successResp h1 (by decide)
    simp [write_word_data, hsend]
  · rw [show (processCommand (fun _ => .ok b2)
        ⟨some (fakeDriver v bs), false, bn⟩
        { type := some "read_word_data", address := some a,
          register := some reg }).resp = successVal v from rfl]
    obtain ⟨rest, hrest⟩ := recvResponse_frame enc (successVal v) hL2
    have hsend := fun cmd => (sendCommand_decoded jd cr host port
      [frame enc (successVal v)] (enc (successVal v)) rest cmd hrest).1
      (successVal v) h2 (by simp [successVal])
    simp only [read_word_data]
    rw [hsend]
    simp [successVal]
  · rw [show (processCommand (fun _ => .ok b2)
        ⟨some (fakeDriver v bs), false, bn⟩
        { type := some "write_i2c_block_data", address := some a,
          register := some reg, data := some bs }).resp = successResp from rfl]
    obtain ⟨rest, hrest⟩ := recvResponse_frame enc successResp hL1
    have hsend := fun cmd => (sendCommand_decoded jd cr host port
      [frame enc successResp] (enc successResp) rest cmd hrest).1
      successResp h1 (by decide)
    simp [write_i2c_block_data, hsend]
  · rw [show (processCommand (fun _ => .ok b2)
        ⟨some (fakeDriver v bs), false, bn⟩
        { type := some "read_i2c_block_data", address := some a,
          register := some reg, length := some ln }).resp
        = successData bs from rfl]
    obtain ⟨rest, hrest⟩ := recvResponse_frame enc (successData bs) hL3
    have hsend := fun cmd => (sendCommand_decoded jd cr host port
      [frame enc (successData bs)] (enc (successData bs)) rest cmd hrest).1
      (successData bs) h3 (by simp [successData])
    simp only [read_i2c_block_data]
    rw [hsend]
    simp [successData]
  · rw [show (processCommand (fun _ => .ok b2)
        ⟨some (fakeDriver v bs), false, bn⟩ { type := some "scan" }).resp
        = successDevices (scanDevices ⟨some (fakeDriver v bs), false, bn⟩)
        from rfl]
    obtain ⟨rest, hrest⟩ := recvResponse_frame enc
      (successDevices (scanDevices ⟨some (fakeDriver v bs), false, bn⟩)) hL4
    have hsend := fun cmd => (sendCommand_decoded jd cr host port
      [frame enc (successDevices (scanDevices ⟨some (fakeDriver v bs), false, bn⟩))]
      (enc (successDevices (scanDevices ⟨some (fakeDriver v bs), false, bn⟩)))
      rest cmd hrest).1
      (successDevices (scanDevices ⟨some (fakeDriver v bs), false, bn⟩)) h4
      (by simp [successDevices])
    simp only [scan]
    rw [hsend]
    simp [successDevices]
  · rw [show (processCommand (fun _ => .ok b2)
        ⟨some (fakeDriver v bs), false, bn⟩
        { type := some "reset_interface" }).resp
        = successMsg "I2C interface reset" from rfl]
    obtain ⟨rest, hrest⟩ := recvResponse_frame enc
      (successMsg "I2C interface reset") hL5
    have hsend := fun cmd => (sendCommand_decoded jd cr host port
      [frame enc (successMsg "I2C interface reset")]
      (enc (successMsg "I2C interface reset")) rest cmd hrest).1
      (successMsg "I2C interface reset") h5 (by decide)
    simp only [reset_interface]
    rw [hsend]
    simp [successMsg]

/-- Claim C1 witness: the read_byte round trip over the concrete codec
`encW`/`jdW` and the fake driver configured to return 7. -/
theorem c1_roundtrip_witness :
    (read_byte jdW none ⟨"h", 1, some (.conn true [frame encW
        ((processCommand (fun _ => .ok (fakeDriver 7 [1, 2]))
          ⟨some (fakeDriver 7 [1, 2]), false, 1⟩
          { type := some "read_byte", address := some 5 }).resp)])⟩ 5).1
      = .ok 7 :=
  (c1_roundtrip encW jdW none "h" 1 7 [1, 2] 5 2 3 1 (fakeDriver 7 [1, 2])
    (by decide) (by decide) (by decide) (by decide) (by decide) (by decide)
    (by decide) (by decide) (by decide) (by decide)).2.1

end I2C
